import Mathlib

/-!
Verification of the dam-busters scrollytelling map choreography engine.

The JavaScript source is shallowly embedded: each data record the code
manipulates becomes a Lean structure, each function a Lean definition over
rationals (JS numbers at the precision the claims need), and the DOM /
setTimeout side effects become explicit state passing.
-/

namespace DamBusters

/-! ## Data model (per the slide records of the choreography file) -/

/-- `timeSlider` block of a slide: start/end timestamps (ms since epoch),
step count and step unit, per `slideData.timeSlider` in the source. -/
structure TimeSliderData where
  timeSliderStart : ℚ
  timeSliderEnd : ℚ
  timeSliderStep : ℚ
  timeSliderUnit : String
  deriving Repr, DecidableEq

/-- `layerVisibility` block of a slide: titles to show and titles to hide.
Either list may be absent (JS `undefined`). -/
structure LayerVisibilityData where
  layersOn : Option (List String)
  layersOff : Option (List String)
  deriving Repr, DecidableEq

/-- Lighting part of an `environment` block: `type`, `datetime` (ms since
epoch) and `displayUTCOffset`. -/
structure EnvLighting where
  type : String
  datetime : ℚ
  displayUTCOffset : ℚ
  deriving Repr, DecidableEq

/-- Weather part of an `environment` block; `cloudCover` and
`precipitation` are optional numeric fields. -/
structure EnvWeather where
  type : String
  cloudCover : Option ℚ
  precipitation : Option ℚ
  deriving Repr, DecidableEq

/-- `environment` block of a slide.  Every sub-block may be absent in the
JSON (a malformed or partial block), which is what the unguarded property
accesses of the continuous handler trip over. -/
structure EnvironmentData where
  lighting : Option EnvLighting
  atmosphereEnabled : Option Bool
  starsEnabled : Option Bool
  weather : Option EnvWeather
  deriving Repr, DecidableEq

/-- One slide record of the choreography sequence.  Every field is optional
(JS objects simply lack absent keys).  `maps` lists view-surface
identifiers (0 = primary 2D map, 1 = secondary 3D scene). -/
structure SlideData where
  maps : Option (List ℕ)
  timeSlider : Option TimeSliderData
  layerVisibility : Option LayerVisibilityData
  environment : Option EnvironmentData
  deriving Repr, DecidableEq

/-! ## Scene lifecycle need evaluation (`sceneUtils.js`, `evaluateSceneLifecycle`) -/

/-- JS array indexing `slides[i]` where `i` may be negative (then
`undefined`) or past the end (then `undefined`). -/
def jsIndex (slides : List SlideData) (i : ℤ) : Option SlideData :=
  if i < 0 then none else slides[i.toNat]?

/-- The predicate of the source's `nearbySlides.some` callback:
`slide && slide.maps && slide.maps.includes(1)`. -/
def slideUsesScene (s : Option SlideData) : Bool :=
  match s with
  | some sl =>
    match sl.maps with
    | some ms => ms.contains 1
    | none => false
  | none => false

/-- `evaluateSceneLifecycle(index, slides)`: looks at previous, current and
next slides and returns true if any of them uses the 3D scene. -/
def evaluateSceneLifecycle (index : ℤ) (slides : List SlideData) : Bool :=
  [jsIndex slides (index - 1), jsIndex slides index, jsIndex slides (index + 1)].any
    slideUsesScene

/-- A concrete slide for the lifecycle example: associated only with the
primary 2D map. -/
def mapOnlySlide : SlideData :=
  { maps := some [0], timeSlider := none, layerVisibility := none, environment := none }

/-- A concrete slide referencing the secondary 3D surface (identifier 1). -/
def sceneSlide : SlideData :=
  { maps := some [0, 1], timeSlider := none, layerVisibility := none, environment := none }

/-- Example sequence in which only the slide at index 3 references
surface 1. -/
def exampleSlides : List SlideData :=
  [mapOnlySlide, mapOnlySlide, mapOnlySlide, sceneSlide, mapOnlySlide, mapOnlySlide,
    mapOnlySlide]

/-! ## Scene destroy grace delay (`sceneUtils.js`: `scheduleSceneDestroy`,
`cancelScheduledSceneDestroy`, `destroyScene`, `ensureScene`)

The `setTimeout`/`clearTimeout` machinery is embedded as an explicit state
machine: the module-level variables `sceneElement` and `sceneDestroyTimer`
become a state record, and the events that touch them become a step
function.  A pending timer is recorded by its absolute deadline; a cleared
timer never fires, which the step function renders as the fire event being
a no-op when no timer is pending. -/

/-- Module-level lifecycle state of `sceneUtils.js`: whether the secondary
scene element exists, and the deadline of a pending destroy timer. -/
structure SceneLifecycleState where
  scenePresent : Bool
  sceneDestroyTimer : Option ℕ
  deriving Repr, DecidableEq

/-- Events that drive the lifecycle state: `scheduleSceneDestroy` called at
absolute time `now`, `ensureScene`, and the destroy timeout callback
running at absolute time `now`. -/
inductive SceneEvent where
  | scheduleDestroy (now : ℕ)
  | ensure
  | timerFires (now : ℕ)
  deriving Repr, DecidableEq

/-- Default grace delay of `scheduleSceneDestroy` (ms). -/
def SCENE_DESTROY_DELAY : ℕ := 600

/-- One lifecycle step.
`scheduleDestroy`: cancels any pending timer and arms one for
`now + delay` (source: `cancelScheduledSceneDestroy(); sceneDestroyTimer =
setTimeout(..., delay)`).
`ensure`: if the element exists, cancels the pending destroy and returns
it; otherwise creates the element (source: `ensureScene`).
`timerFires`: the timeout callback — runs only if a timer is pending and
its deadline has been reached, destroys the scene if still present and
clears the timer. -/
def sceneStep (s : SceneLifecycleState) (e : SceneEvent) : SceneLifecycleState :=
  match e with
  | .scheduleDestroy now => { s with sceneDestroyTimer := some (now + SCENE_DESTROY_DELAY) }
  | .ensure =>
    if s.scenePresent then { s with sceneDestroyTimer := none }
    else { s with scenePresent := true }
  | .timerFires now =>
    match s.sceneDestroyTimer with
    | some deadline =>
      if deadline ≤ now then { scenePresent := false, sceneDestroyTimer := none } else s
    | none => s

/-- Run a sequence of lifecycle events from a starting state. -/
def sceneRun (s : SceneLifecycleState) (es : List SceneEvent) : SceneLifecycleState :=
  es.foldl sceneStep s

/-! ## Discrete time-control handler (`animateOnSlide.js`, `toggleTimeSlider`) -/

/-- A time extent as assigned by the handlers: `{start: ..., end: ...}`
with either bound possibly `null`. -/
structure TimeExtent where
  startTime : Option ℚ
  endTime : Option ℚ
  deriving Repr, DecidableEq

/-- The `stops` interval configuration `{interval: {value, unit}}`. -/
structure StopsInterval where
  value : ℚ
  unit : String
  deriving Repr, DecidableEq

/-- The time-slider widget as the handlers see it: its readiness `state`
string, the playback status (`play()` sets it playing, `stop()` sets it
stopped), and the extent/stops properties the handlers assign. -/
structure TimeSliderWidget where
  state : String
  playback : String
  fullTimeExtent : Option TimeExtent
  timeExtent : Option TimeExtent
  stops : Option StopsInterval
  deriving Repr, DecidableEq

/-- `toggleTimeSlider({slideData, view, timeSlider, embedded})`: when the
widget exists and the slide has a `timeSlider` block with start and end,
sets the full time extent, positions the current extent at the start (its
own start bound `null`), sets the stops interval, then plays if the widget
is ready and not embedded, stops if ready and embedded, and otherwise
leaves playback untouched. -/
def toggleTimeSlider (slideData : SlideData) (timeSlider : Option TimeSliderWidget)
    (embedded : Bool) : Option TimeSliderWidget :=
  match timeSlider, slideData.timeSlider with
  | some w, some ts =>
    let startFrame := ts.timeSliderStart
    let endFrame := ts.timeSliderEnd
    let w' : TimeSliderWidget :=
      { w with
        fullTimeExtent := some { startTime := some startFrame, endTime := some endFrame }
        timeExtent := some { startTime := none, endTime := some startFrame }
        stops := some { value := ts.timeSliderStep, unit := ts.timeSliderUnit } }
    if w'.state = "ready" ∧ ¬embedded then some { w' with playback := "playing" }
    else if w'.state = "ready" ∧ embedded then some { w' with playback := "stopped" }
    else some w'
  | _, _ => timeSlider

/-! ## Continuous time handler (`animateOnScroll.js`, `interpolateTimeSlider`) -/

/-- The unit→milliseconds table of `interpolateTimeSlider`, composed with
the source's `unitToMs[unit] || 0` fallback for unrecognized units. -/
def unitToMs (unit : String) : ℚ :=
  if unit = "milliseconds" then 1
  else if unit = "seconds" then 1000
  else if unit = "minutes" then 60 * 1000
  else if unit = "hours" then 60 * 60 * 1000
  else if unit = "days" then 24 * 60 * 60 * 1000
  else if unit = "weeks" then 7 * 24 * 60 * 60 * 1000
  else if unit = "months" then 30 * 24 * 60 * 60 * 1000
  else if unit = "years" then 365 * 24 * 60 * 60 * 1000
  else 0

/-- Outcome of `interpolateTimeSlider`: the degenerate `stepMs <= 0` branch
returns a bare Date and leaves the widget untouched; the normal branch
assigns `timeExtent` and stops playback; a missing `timeSlider` block makes
the property accesses throw, which the handler's own try/catch logs,
leaving the widget untouched. -/
inductive InterpolateTimeResult where
  | earlyReturn (value : ℚ)
  | applied (widget : TimeSliderWidget)
  | errorCaught
  deriving Repr, DecidableEq

/-- `interpolateTimeSlider({slideCurrent, ..., progress, timeSlider})`:
interpolates between the current slide's start/end using `progress`, and
either returns `min(value, end)` when `stepMs <= 0`, or snaps the offset up
to the next step multiple (`Math.ceil`), clamps into `[start, end]`, sets
`timeExtent = {start: null, end: clamped}` and stops playback. -/
def interpolateTimeSlider (slideCurrent : SlideData) (progress : ℚ)
    (timeSlider : TimeSliderWidget) : InterpolateTimeResult :=
  match slideCurrent.timeSlider with
  | none => .errorCaught
  | some slideTimeData =>
    let start := slideTimeData.timeSliderStart
    let stop := slideTimeData.timeSliderEnd
    let step := slideTimeData.timeSliderStep
    let unit := slideTimeData.timeSliderUnit
    let interpolatedTime := start + (stop - start) * progress
    let stepMs := step * unitToMs unit
    if stepMs ≤ 0 then .earlyReturn (min interpolatedTime stop)
    else
      let offset := interpolatedTime - start
      let snappedOffset := (⌈offset / stepMs⌉ : ℚ) * stepMs
      let snappedTime := start + snappedOffset
      let clampedTime := min (max snappedTime start) stop
      .applied
        { timeSlider with
          timeExtent := some { startTime := none, endTime := some clampedTime }
          playback := "stopped" }

/-! ## Continuous environment handler (`animateOnScroll.js`, `interpolateEnvironment`) -/

/-- The object assigned to `view.environment` by the continuous handler. -/
structure AppliedEnvironment where
  lightingType : String
  lightingDate : ℚ
  displayUTCOffset : ℚ
  atmosphereEnabled : Option Bool
  starsEnabled : Option Bool
  weatherType : String
  cloudCover : Option ℚ
  precipitation : Option ℚ
  deriving Repr, DecidableEq

/-- Outcome of `interpolateEnvironment`: no-op when either slide lacks an
environment block; a thrown `TypeError` (caught by the dispatcher) when a
present block lacks its `lighting` or `weather` sub-object, which the
handler dereferences unguarded; otherwise the environment assigned to the
view. -/
inductive EnvInterpolationResult where
  | noop
  | thrown
  | applied (env : AppliedEnvironment)
  deriving Repr, DecidableEq

/-- `interpolateEnvironment({slideCurrent, slideNext, progress, view})`:
requires both slides to carry an environment block (else returns), lerps
the lighting datetime, lerps cloud cover and precipitation only when both
sides define them, and takes lighting type, UTC offset and weather type
from the next slide. -/
def interpolateEnvironment (slideCurrent slideNext : SlideData) (progress : ℚ) :
    EnvInterpolationResult :=
  match slideCurrent.environment, slideNext.environment with
  | some currentEnv, some nextEnv =>
    match currentEnv.lighting, nextEnv.lighting, currentEnv.weather, nextEnv.weather with
    | some cl, some nl, some cw, some nw =>
      let interpolatedLighting := cl.datetime + (nl.datetime - cl.datetime) * progress
      let interpolatedCloudCover :=
        match cw.cloudCover, nw.cloudCover with
        | some c0, some c1 => some (c0 + (c1 - c0) * progress)
        | _, _ => cw.cloudCover
      let interpolatedPrecipitation :=
        match cw.precipitation, nw.precipitation with
        | some p0, some p1 => some (p0 + (p1 - p0) * progress)
        | _, _ => cw.precipitation
      .applied
        { lightingType := nl.type
          lightingDate := interpolatedLighting
          displayUTCOffset := nl.displayUTCOffset
          atmosphereEnabled := currentEnv.atmosphereEnabled
          starsEnabled := currentEnv.starsEnabled
          weatherType := nw.type
          cloudCover := interpolatedCloudCover
          precipitation := interpolatedPrecipitation }
    | _, _, _, _ => .thrown
  | _, _ => .noop

/-! ## Discrete environment handler (`animateOnSlide.js`, `toggleEnvironment`) -/

/-- The `view.environment` property contents at the granularity of the
discrete handler's top-level `Object.assign` merge. -/
structure ViewEnvironment where
  lighting : Option EnvLighting
  atmosphereEnabled : Option Bool
  starsEnabled : Option Bool
  weather : Option EnvWeather
  deriving Repr, DecidableEq

/-- `toggleEnvironment({slideData, view, ...})`: no-op when the slide has
no environment block or the view does not support an environment property
(2D map); otherwise builds a patch from the present sub-blocks and merges
it over the current environment (`Object.assign` on top-level keys, so
unspecified sub-blocks are preserved). -/
def toggleEnvironment (slideData : SlideData) (viewEnvironment : Option ViewEnvironment) :
    Option ViewEnvironment :=
  match slideData.environment with
  | none => viewEnvironment
  | some slideEnv =>
    match viewEnvironment with
    | none => none
    | some currentEnv =>
      some
        { lighting := match slideEnv.lighting with | some l => some l | none => currentEnv.lighting
          atmosphereEnabled :=
            match slideEnv.atmosphereEnabled with
            | some b => some b
            | none => currentEnv.atmosphereEnabled
          starsEnabled :=
            match slideEnv.starsEnabled with
            | some b => some b
            | none => currentEnv.starsEnabled
          weather := match slideEnv.weather with | some w => some w | none => currentEnv.weather }

/-! ## Layer-visibility handler (`animateOnSlide.js`, `toggleLayerVisibility`) -/

/-- One entry of `view.map.layers`: a title and a visibility flag. -/
structure MapLayer where
  title : String
  visible : Bool
  deriving Repr, DecidableEq

/-- Inner `setLayerVisibility(layerNames, visibility)`: when the name list
exists and is non-empty, walks the layer collection and assigns
`visibility` to every layer whose title is in the list; other layers are
untouched. -/
def setLayerVisibility (layerNames : Option (List String)) (visibility : Bool)
    (mapLayers : List MapLayer) : List MapLayer :=
  match layerNames with
  | none => mapLayers
  | some names =>
    if names.length > 0 then
      mapLayers.map fun mapLayer =>
        if names.contains mapLayer.title then { mapLayer with visible := visibility }
        else mapLayer
    else mapLayers

/-- `toggleLayerVisibility({slideData, view, ...})`: turns on the
`layersOn` titles, then turns off the `layersOff` titles. -/
def toggleLayerVisibility (lv : LayerVisibilityData) (mapLayers : List MapLayer) :
    List MapLayer :=
  setLayerVisibility lv.layersOff false (setLayerVisibility lv.layersOn true mapLayers)

/-! ## Viewpoint synchronization (`sceneUtils.js`, `syncViews`) -/

/-- `view.center`: the code probes both a `latitude` and a `lat` property
(`fromView.center?.latitude ?? fromView.center?.lat ?? 0`). -/
structure ViewCenter where
  latitude : Option ℚ
  lat : Option ℚ
  deriving Repr, DecidableEq

/-- The cloned viewpoint: `syncViews` modifies only its `scale`; the other
cloned fields ride along unchanged (represented here by `rotation`). -/
structure SyncViewpoint where
  scale : ℚ
  rotation : ℚ
  deriving Repr, DecidableEq

/-- A view as `syncViews` reads it: its `type` discriminator, its current
viewpoint, and its optional center. -/
structure SyncView where
  type : String
  viewpoint : SyncViewpoint
  center : Option ViewCenter
  deriving Repr, DecidableEq

/-- The `toView.goTo(vp, { animate: false })` call issued by `syncViews`. -/
structure SyncGoToCall where
  target : SyncViewpoint
  animate : Bool
  deriving Repr, DecidableEq

/-- `syncViews(fromView, toView)`.  `Math.cos((lat * Math.PI) / 180)` is an
external floating-point library routine; it is embedded as the abstract
parameter `cosDeg`, with `cosDeg lat` standing for that call on the
latitude in degrees.  Returns the `goTo` call issued on the destination
view, or `none` when either view is missing or a sync is in progress. -/
def syncViews (cosDeg : ℚ → ℚ) (isSyncing : Bool) (fromView toView : Option SyncView) :
    Option SyncGoToCall :=
  match fromView, toView with
  | some fv, some tv =>
    if isSyncing then none
    else
      let vp := fv.viewpoint
      let lat :=
        (((fv.center.bind ViewCenter.latitude)).orElse
          (fun _ => fv.center.bind ViewCenter.lat)).getD 0
      let scaleConversionFactor := cosDeg lat
      let vp' :=
        if fv.type = "3d" ∧ tv.type = "2d" then
          { vp with scale := vp.scale / scaleConversionFactor }
        else if fv.type = "2d" ∧ tv.type = "3d" then
          { vp with scale := vp.scale * scaleConversionFactor }
        else vp
      some { target := vp', animate := false }
  | _, _ => none

/-! ## Crossfade controller (`crossfade` in the main module) -/

/-- A view container's DOM state as `crossfade` manipulates it: the
`hidden` CSS class, the opacity style, and the `pointerEvents` style. -/
structure ContainerState where
  hidden : Bool
  opacity : ℚ
  pointerEvents : String
  deriving Repr, DecidableEq

/-- Result of a `crossfade` call: both containers' final states, whether
`ensureScene` was invoked, and whether a `syncViews` call was issued. -/
structure CrossfadeResult where
  fromContainer : ContainerState
  toContainer : ContainerState
  sceneEnsured : Bool
  syncInvoked : Bool
  deriving Repr, DecidableEq

/-- `crossfade(fromMapIndex, toMapIndex, t)`: clamps `t`; unhides (and
ensures) the scene-backed container when the transition touches it; hides
the `to` container while `t < 0.2` and the `from` container while
`t > 0.8`; sets opacities `1-t` and `t`; routes pointer events to `from`
when `t < 0.5` and to `to` when `t > 0.5`; and issues a view sync only
strictly inside the transition when both views exist.  (The claims only
exercise distinct indices 0 and 1, so the two containers are distinct DOM
nodes.) -/
def crossfade (fromMapIndex toMapIndex : ℕ) (tRaw : ℚ)
    (fromContainer toContainer : ContainerState)
    (fromViewExists toViewExists : Bool) : CrossfadeResult :=
  let t := max 0 (min 1 tRaw)
  let ensuredTo := toMapIndex = 1 ∧ 0 < t
  let toContainer :=
    if toMapIndex = 1 ∧ 0 < t then { toContainer with hidden := false } else toContainer
  let ensuredFrom := fromMapIndex = 1 ∧ t < 1
  let fromContainer :=
    if fromMapIndex = 1 ∧ t < 1 then { fromContainer with hidden := false } else fromContainer
  let toContainer :=
    if t < 1/5 then { toContainer with hidden := true } else toContainer
  let fromContainer :=
    if ¬(t < 1/5) ∧ t > 4/5 then { fromContainer with hidden := true } else fromContainer
  let fromContainer :=
    { fromContainer with
      opacity := 1 - t
      pointerEvents := if t < 1/2 then "auto" else "none" }
  let toContainer :=
    { toContainer with
      opacity := t
      pointerEvents := if t > 1/2 then "auto" else "none" }
  { fromContainer := fromContainer
    toContainer := toContainer
    sceneEnsured := decide ensuredTo || decide ensuredFrom
    syncInvoked := fromViewExists && toViewExists && decide (0 < t) && decide (t < 1) }

/-! ## Choreography dispatch (`animateOnSlide.js` `slideAnimation`,
`animateOnScroll.js` `scrollAnimation`)

The dispatchers iterate a slide's own keys, look each key up in a handler
table of JS functions, and wrap every handler call in try/catch.  The
handler functions are embedded as `AppState → Except String AppState`
(`Except.error` is a thrown exception), and the table as
`String → Option (AppState → Except String AppState)`. -/

/-- The mutable state the modelled handlers touch: the layer collection,
the active time-slider widget, and the view's environment property
(`none` for a view without environment support). -/
structure AppState where
  layers : List MapLayer
  timeSliderWidget : Option TimeSliderWidget
  viewEnvironment : Option ViewEnvironment
  deriving Repr, DecidableEq

/-- A handler call inside the dispatcher's `try { handler(context) } catch
(error) { console.error(...) }`: a thrown error is logged and the state is
left as the handler found it. -/
def jsTryCatch (handler : AppState → Except String AppState) (s : AppState) : AppState :=
  match handler s with
  | .ok s' => s'
  | .error _ => s

/-- Keys skipped by the discrete dispatcher while embedded. -/
def NON_EMBED_EXCLUDE_KEYS : List String := ["viewpoint"]

/-- `slideAnimation(slideData, view, timeSlider, embedded)`: iterates the
slide's keys in object order; unrecognized keys are skipped, the
`viewpoint` key is skipped while embedded, every other recognized handler
runs inside try/catch. -/
def slideAnimation (handlers : String → Option (AppState → Except String AppState))
    (embedded : Bool) (slideKeys : List String) (s : AppState) : AppState :=
  slideKeys.foldl
    (fun acc key =>
      match handlers key with
      | none => acc
      | some handler =>
        if embedded ∧ key ∈ NON_EMBED_EXCLUDE_KEYS then acc
        else jsTryCatch handler acc)
    s

/-- `scrollAnimation(slideCurrent, slideNext, progress, view, timeSlider)`:
same dispatch skeleton without the embedded-mode key exclusion. -/
def scrollAnimation (handlers : String → Option (AppState → Except String AppState))
    (slideKeys : List String) (s : AppState) : AppState :=
  slideKeys.foldl
    (fun acc key =>
      match handlers key with
      | none => acc
      | some handler => jsTryCatch handler acc)
    s

/-- Discrete `toggleTimeSlider` as a dispatchable handler over `AppState`. -/
def slideTimeSliderHandler (slideData : SlideData) (embedded : Bool) :
    AppState → Except String AppState := fun s =>
  .ok { s with timeSliderWidget := toggleTimeSlider slideData s.timeSliderWidget embedded }

/-- Discrete `toggleLayerVisibility` as a dispatchable handler.  The source
dereferences `slideData.layerVisibility.layersOn` unguarded, so a missing
block is a thrown `TypeError`. -/
def slideLayerVisibilityHandler (slideData : SlideData) :
    AppState → Except String AppState := fun s =>
  match slideData.layerVisibility with
  | some lv => .ok { s with layers := toggleLayerVisibility lv s.layers }
  | none => .error "TypeError: cannot read properties of undefined"

/-- Discrete `toggleEnvironment` as a dispatchable handler. -/
def slideEnvironmentHandler (slideData : SlideData) :
    AppState → Except String AppState := fun s =>
  .ok { s with viewEnvironment := toggleEnvironment slideData s.viewEnvironment }

/-- The discrete handler table `choreographyHandlers` of
`animateOnSlide.js`, instantiated for one dispatch context.  The
`viewpoint` and `trackRenderer` handlers mutate only view navigation and
layer-internal renderer state, which `AppState` does not track; they are
entered as state-preserving handlers. -/
def choreographyHandlersSlide (slideData : SlideData) (embedded : Bool) :
    String → Option (AppState → Except String AppState) := fun key =>
  if key = "viewpoint" then some fun s => .ok s
  else if key = "timeSlider" then some (slideTimeSliderHandler slideData embedded)
  else if key = "layerVisibility" then some (slideLayerVisibilityHandler slideData)
  else if key = "trackRenderer" then some fun s => .ok s
  else if key = "environment" then some (slideEnvironmentHandler slideData)
  else none

/-- Continuous `interpolateTimeSlider` as a dispatchable handler: the
degenerate and error outcomes leave the widget untouched. -/
def scrollTimeSliderHandler (slideCurrent : SlideData) (progress : ℚ) :
    AppState → Except String AppState := fun s =>
  match s.timeSliderWidget with
  | none => .error "TypeError: timeSlider is undefined"
  | some w =>
    match interpolateTimeSlider slideCurrent progress w with
    | .applied w' => .ok { s with timeSliderWidget := some w' }
    | .earlyReturn _ => .ok s
    | .errorCaught => .error "TypeError: slide has no timeSlider block"

/-- Continuous `interpolateEnvironment` as a dispatchable handler: a
malformed present block throws; an applied result fully replaces the
view's environment. -/
def scrollEnvironmentHandler (slideCurrent slideNext : SlideData) (progress : ℚ) :
    AppState → Except String AppState := fun s =>
  match interpolateEnvironment slideCurrent slideNext progress with
  | .noop => .ok s
  | .thrown => .error "TypeError: malformed environment block"
  | .applied env =>
    .ok { s with
          viewEnvironment := some
            { lighting := some
                { type := env.lightingType
                  datetime := env.lightingDate
                  displayUTCOffset := env.displayUTCOffset }
              atmosphereEnabled := env.atmosphereEnabled
              starsEnabled := env.starsEnabled
              weather := some
                { type := env.weatherType
                  cloudCover := env.cloudCover
                  precipitation := env.precipitation } } }

/-- The continuous handler table `choreographyHandlers` of
`animateOnScroll.js`, instantiated for one dispatch context.  The
`viewpoint` handler only issues navigation, which `AppState` does not
track. -/
def choreographyHandlersScroll (slideCurrent slideNext : SlideData) (progress : ℚ) :
    String → Option (AppState → Except String AppState) := fun key =>
  if key = "viewpoint" then some fun s => .ok s
  else if key = "timeSlider" then some (scrollTimeSliderHandler slideCurrent progress)
  else if key = "environment" then
    some (scrollEnvironmentHandler slideCurrent slideNext progress)
  else none

/-! ## Concrete fixtures used by witnesses and counterexamples -/

/-- A slide whose time window is 0–3000ms with a 1-second step: at
progress 1/2 the interpolated offset is 1500, the spec's snapping
example. -/
def snapExampleSlide : SlideData :=
  { maps := none
    timeSlider := some
      { timeSliderStart := 0, timeSliderEnd := 3000, timeSliderStep := 1,
        timeSliderUnit := "seconds" }
    layerVisibility := none
    environment := none }

/-- A ready, stopped time-slider widget. -/
def readyWidget : TimeSliderWidget :=
  { state := "ready", playback := "stopped", fullTimeExtent := none, timeExtent := none,
    stops := none }

/-- A widget whose previous slide's playback is still running: its state
reports `"playing"`, not `"ready"`. -/
def playingWidget : TimeSliderWidget :=
  { state := "playing", playback := "playing", fullTimeExtent := none, timeExtent := none,
    stops := none }

/-- Current slide of the environment interpolation example: lighting
datetime 0, clear weather. -/
def envSlideCurrent : SlideData :=
  { maps := none, timeSlider := none, layerVisibility := none
    environment := some
      { lighting := some { type := "sun", datetime := 0, displayUTCOffset := 0 }
        atmosphereEnabled := some true
        starsEnabled := some false
        weather := some { type := "clear", cloudCover := some 0, precipitation := some 0 } } }

/-- Next slide of the environment interpolation example: lighting datetime
one hour later (3600000ms), rainy weather. -/
def envSlideNext : SlideData :=
  { maps := none, timeSlider := none, layerVisibility := none
    environment := some
      { lighting := some { type := "sun", datetime := 3600000, displayUTCOffset := 0 }
        atmosphereEnabled := some true
        starsEnabled := some true
        weather := some { type := "rain", cloudCover := some 100, precipitation := some 1 } } }

/-- Total projection of the applied case of an interpolation outcome. -/
def appliedEnvOf : EnvInterpolationResult → Option AppliedEnvironment
  | .applied e => some e
  | _ => none

/-- A slide carrying a malformed environment block (no sub-fields at all)
alongside normal layer-visibility and time-slider blocks. -/
def malformedEnvSlide : SlideData :=
  { maps := none
    timeSlider := some
      { timeSliderStart := 0, timeSliderEnd := 10000, timeSliderStep := 1,
        timeSliderUnit := "seconds" }
    layerVisibility := some { layersOn := some ["Dams"], layersOff := some ["Routes"] }
    environment := some
      { lighting := none, atmosphereEnabled := none, starsEnabled := none, weather := none } }

/-- Initial app state for the dispatch demonstrations. -/
def dispatchInitState : AppState :=
  { layers :=
      [{ title := "Dams", visible := false }, { title := "Routes", visible := true },
       { title := "Base", visible := true }]
    timeSliderWidget := some readyWidget
    viewEnvironment := some
      { lighting := none, atmosphereEnabled := none, starsEnabled := none, weather := none } }

/-! ## Theorems -/

theorem slideUsesScene_eq_true_iff (s : Option SlideData) :
    slideUsesScene s = true ↔
      ∃ sl ms, s = some sl ∧ sl.maps = some ms ∧ 1 ∈ ms := by
  cases s with
  | none => simp [slideUsesScene]
  | some sl =>
    cases h : sl.maps with
    | none => simp [slideUsesScene, h]
    | some ms => simp [slideUsesScene, h]

theorem exampleSlides_usesScene_iff (j : ℤ) :
    slideUsesScene (jsIndex exampleSlides j) = true ↔ j = 3 := by
  constructor
  · intro h
    by_contra hne
    rcases lt_or_le j 0 with hneg | hpos
    · simp [jsIndex, hneg, slideUsesScene] at h
    · rcases lt_or_le j 7 with hlt | hge
      · interval_cases j <;>
          simp_all [jsIndex, exampleSlides, slideUsesScene, mapOnlySlide, sceneSlide]
      · have h7 : (7 : ℕ) ≤ j.toNat := by omega
        have : exampleSlides[j.toNat]? = none := by
          apply List.getElem?_eq_none
          simpa [exampleSlides] using h7
        simp [jsIndex, not_lt.mpr hpos, this, slideUsesScene] at h
  · intro h
    subst h
    decide

/-- Claim C6: `evaluateSceneLifecycle(index, slides)` returns true exactly
when at least one of the slides at `index-1`, `index`, `index+1` exists and
its `maps` array contains the secondary surface identifier 1; and on the
example sequence where only the slide at index 3 references surface 1 it is
true exactly at indices 2, 3 and 4. -/
theorem evaluateSceneLifecycle_spec :
    (∀ (index : ℤ) (slides : List SlideData),
      evaluateSceneLifecycle index slides = true ↔
        ∃ j : ℤ, (j = index - 1 ∨ j = index ∨ j = index + 1) ∧
          ∃ sl ms, jsIndex slides j = some sl ∧ sl.maps = some ms ∧ 1 ∈ ms)
    ∧ (∀ i : ℤ, evaluateSceneLifecycle i exampleSlides = true ↔ (i = 2 ∨ i = 3 ∨ i = 4)) := by
  constructor
  · intro index slides
    simp only [evaluateSceneLifecycle, List.any_cons, List.any_nil, Bool.or_false,
      Bool.or_eq_true, slideUsesScene_eq_true_iff]
    constructor
    · rintro (h | h | h)
      · exact ⟨index - 1, Or.inl rfl, h⟩
      · exact ⟨index, Or.inr (Or.inl rfl), h⟩
      · exact ⟨index + 1, Or.inr (Or.inr rfl), h⟩
    · rintro ⟨j, (rfl | rfl | rfl), h⟩
      · exact Or.inl h
      · exact Or.inr (Or.inl h)
      · exact Or.inr (Or.inr h)
  · intro i
    simp only [evaluateSceneLifecycle, List.any_cons, List.any_nil, Bool.or_false,
      Bool.or_eq_true, exampleSlides_usesScene_iff]
    omega

/-- Witness for C6: at index 2 of the example sequence the lifecycle check
reports the scene needed. -/
theorem evaluateSceneLifecycle_spec_witness :
    evaluateSceneLifecycle 2 exampleSlides = true :=
  (evaluateSceneLifecycle_spec.2 2).mpr (Or.inl rfl)

/-- Claim C7: after a true→false need transition the scene survives the
grace window: scheduling destroy leaves it present; the timer firing once
the 600ms delay has elapsed destroys it; the timer firing earlier does
not; and an `ensure()` before the deadline cancels the pending destroy so
the scene stays present at every step, including a later timer callback
slot. -/
theorem sceneDestroy_graceDelay_spec (t0 t : ℕ) :
    ((sceneRun ⟨true, none⟩ [.scheduleDestroy t0]).scenePresent = true)
    ∧ ((sceneRun ⟨true, none⟩
        [.scheduleDestroy t0, .timerFires (t0 + SCENE_DESTROY_DELAY)]).scenePresent = false)
    ∧ (t < t0 + SCENE_DESTROY_DELAY →
        (sceneRun ⟨true, none⟩ [.scheduleDestroy t0, .timerFires t]).scenePresent = true)
    ∧ ((sceneRun ⟨true, none⟩ [.scheduleDestroy t0, .ensure]).scenePresent = true)
    ∧ ((sceneRun ⟨true, none⟩ [.scheduleDestroy t0, .ensure]).sceneDestroyTimer = none)
    ∧ ((sceneRun ⟨true, none⟩
        [.scheduleDestroy t0, .ensure, .timerFires t]).scenePresent = true) := by
  refine ⟨rfl, ?_, ?_, ?_, ?_, ?_⟩
  · simp [sceneRun, sceneStep]
  · intro hlt
    simp only [sceneRun, List.foldl, sceneStep]
    rw [if_neg (by omega)]
  · simp [sceneRun, sceneStep]
  · simp [sceneRun, sceneStep]
  · simp [sceneRun, sceneStep]

/-- Witness for C7: with destroy scheduled at time 0, a callback slot at
time 5 leaves the scene present, while the real callback at time 600
removes it. -/
theorem sceneDestroy_graceDelay_spec_witness :
    (sceneRun ⟨true, none⟩ [.scheduleDestroy 0, .timerFires 5]).scenePresent = true
    ∧ (sceneRun ⟨true, none⟩
        [.scheduleDestroy 0, .timerFires (0 + SCENE_DESTROY_DELAY)]).scenePresent = false :=
  ⟨(sceneDestroy_graceDelay_spec 0 5).2.2.1 (by decide),
   (sceneDestroy_graceDelay_spec 0 5).2.1⟩

/-- Claim C8: when the slide's step times the unit factor is not positive
(zero step or unrecognized unit), the continuous time handler returns
`min(interpolated value, end)` without snapping, clamping to a step, or
touching the widget. -/
theorem interpolateTimeSlider_degenerateStep (slideCurrent : SlideData)
    (ts : TimeSliderData) (progress : ℚ) (w : TimeSliderWidget)
    (hts : slideCurrent.timeSlider = some ts)
    (hstep : ts.timeSliderStep * unitToMs ts.timeSliderUnit ≤ 0) :
    interpolateTimeSlider slideCurrent progress w =
      .earlyReturn (min (ts.timeSliderStart + (ts.timeSliderEnd - ts.timeSliderStart) * progress)
        ts.timeSliderEnd) := by
  simp only [interpolateTimeSlider, hts]
  rw [if_pos hstep]

/-- Witness for C8: unit `"fortnights"` is not in the unit table, so the
step factor is 0 and the handler degrades to `min(value, end)` = 1000. -/
theorem interpolateTimeSlider_degenerateStep_witness :
    interpolateTimeSlider
      { maps := none
        timeSlider := some
          { timeSliderStart := 0, timeSliderEnd := 4000, timeSliderStep := 5,
            timeSliderUnit := "fortnights" }
        layerVisibility := none, environment := none }
      (1/4)
      { state := "ready", playback := "stopped", fullTimeExtent := none, timeExtent := none,
        stops := none } = .earlyReturn 1000 := by
  have h := interpolateTimeSlider_degenerateStep
    { maps := none
      timeSlider := some
        { timeSliderStart := 0, timeSliderEnd := 4000, timeSliderStep := 5,
          timeSliderUnit := "fortnights" }
      layerVisibility := none, environment := none }
    { timeSliderStart := 0, timeSliderEnd := 4000, timeSliderStep := 5,
      timeSliderUnit := "fortnights" }
    (1/4)
    { state := "ready", playback := "stopped", fullTimeExtent := none, timeExtent := none,
      stops := none }
    rfl (by have hu : unitToMs "fortnights" = 0 := rfl; simp [hu])
  rw [h]
  norm_num

/-- Claim C10: the hide list is applied after the show list, so a layer
titled in both `layersOn` and `layersOff` ends up invisible, and a layer
titled in neither keeps its prior state. -/
theorem toggleLayerVisibility_hideWins (lv : LayerVisibilityData)
    (mapLayers : List MapLayer) (i : ℕ) (l : MapLayer)
    (hl : mapLayers[i]? = some l) :
    ((∀ onNames, lv.layersOn = some onNames → l.title ∉ onNames) →
     (∀ offNames, lv.layersOff = some offNames → l.title ∉ offNames) →
      (toggleLayerVisibility lv mapLayers)[i]? = some l)
    ∧ (∀ onNames offNames, lv.layersOn = some onNames → lv.layersOff = some offNames →
        l.title ∈ onNames → l.title ∈ offNames →
        (toggleLayerVisibility lv mapLayers)[i]? = some { l with visible := false }) := by
  have hset : ∀ (names : Option (List String)) (vis : Bool) (layers : List MapLayer)
      (l' : MapLayer), layers[i]? = some l' →
      (setLayerVisibility names vis layers)[i]? =
        some (match names with
          | some ns => if l'.title ∈ ns then { l' with visible := vis } else l'
          | none => l') := by
    intro names vis layers l' hl'
    cases names with
    | none => simpa [setLayerVisibility] using hl'
    | some ns =>
      by_cases hlen : ns.length > 0
      · simp [setLayerVisibility, hlen, List.getElem?_map, hl']
      · have hnil : ns = [] := List.length_eq_zero.mp (by omega)
        subst hnil
        simpa [setLayerVisibility] using hl'
  constructor
  · intro hOn hOff
    have h1 : (setLayerVisibility lv.layersOn true mapLayers)[i]? = some l := by
      rw [hset lv.layersOn true mapLayers l hl]
      cases hon : lv.layersOn with
      | none => rfl
      | some ns => simp [hOn ns hon]
    have h2 := hset lv.layersOff false (setLayerVisibility lv.layersOn true mapLayers) l h1
    rw [toggleLayerVisibility, h2]
    cases hoff : lv.layersOff with
    | none => rfl
    | some ns => simp [hOff ns hoff]
  · intro onNames offNames hon hoff hmemOn hmemOff
    have h1 : (setLayerVisibility lv.layersOn true mapLayers)[i]? =
        some { l with visible := true } := by
      rw [hset lv.layersOn true mapLayers l hl, hon]
      simp [hmemOn]
    have h2 := hset lv.layersOff false (setLayerVisibility lv.layersOn true mapLayers)
      { l with visible := true } h1
    rw [toggleLayerVisibility, h2, hoff]
    simp [hmemOff]

/-- Witness for C10: a layer titled in both lists ends invisible, a layer
in neither is untouched. -/
theorem toggleLayerVisibility_hideWins_witness :
    (toggleLayerVisibility { layersOn := some ["Dams"], layersOff := some ["Dams"] }
      [{ title := "Dams", visible := true }, { title := "Base", visible := true }])[0]? =
      some { title := "Dams", visible := false } := by
  have h := (toggleLayerVisibility_hideWins
    { layersOn := some ["Dams"], layersOff := some ["Dams"] }
    [{ title := "Dams", visible := true }, { title := "Base", visible := true }]
    0 { title := "Dams", visible := true } rfl).2
    ["Dams"] ["Dams"] rfl rfl (by decide) (by decide)
  exact h

/-- Claim C3: with a positive effective step, the continuous time handler
interpolates `start + (end-start)*progress`, rounds the offset from start
up to the next step multiple (ceiling — an offset already on a boundary is
unchanged), clamps into `[start, end]`, assigns the extent
`{start: null, end: clamped}` and stops playback. -/
theorem interpolateTimeSlider_snaps_clamps_stops (slideCurrent : SlideData)
    (ts : TimeSliderData) (progress : ℚ) (w : TimeSliderWidget)
    (hts : slideCurrent.timeSlider = some ts)
    (hstep : 0 < ts.timeSliderStep * unitToMs ts.timeSliderUnit)
    (hp0 : 0 ≤ progress) (hp1 : progress ≤ 1)
    (hse : ts.timeSliderStart ≤ ts.timeSliderEnd) :
    ∃ stepMs value snapped clamped : ℚ,
      stepMs = ts.timeSliderStep * unitToMs ts.timeSliderUnit
      ∧ value = ts.timeSliderStart + (ts.timeSliderEnd - ts.timeSliderStart) * progress
      ∧ snapped = ts.timeSliderStart + (⌈(value - ts.timeSliderStart) / stepMs⌉ : ℚ) * stepMs
      ∧ clamped = min (max snapped ts.timeSliderStart) ts.timeSliderEnd
      ∧ interpolateTimeSlider slideCurrent progress w =
          .applied { w with
            timeExtent := some { startTime := none, endTime := some clamped }
            playback := "stopped" }
      ∧ ts.timeSliderStart ≤ clamped ∧ clamped ≤ ts.timeSliderEnd
      ∧ value ≤ snapped
      ∧ snapped < value + stepMs
      ∧ (∃ k : ℤ, snapped - ts.timeSliderStart = (k : ℚ) * stepMs)
      ∧ (∀ k : ℤ, value - ts.timeSliderStart = (k : ℚ) * stepMs → snapped = value) := by
  refine ⟨_, _, _, _, rfl, rfl, rfl, rfl, ?_, ?_, ?_, ?_, ?_, ?_, ?_⟩
  · simp only [interpolateTimeSlider, hts]
    rw [if_neg (not_le.mpr hstep)]
  · exact le_min (le_max_right _ _) hse
  · exact min_le_right _ _
  · have h1 := Int.le_ceil
      ((ts.timeSliderStart + (ts.timeSliderEnd - ts.timeSliderStart) * progress -
        ts.timeSliderStart) / (ts.timeSliderStep * unitToMs ts.timeSliderUnit))
    rw [div_le_iff₀ hstep] at h1
    linarith
  · have h1 := Int.ceil_lt_add_one
      ((ts.timeSliderStart + (ts.timeSliderEnd - ts.timeSliderStart) * progress -
        ts.timeSliderStart) / (ts.timeSliderStep * unitToMs ts.timeSliderUnit))
    have h2 := mul_lt_mul_of_pos_right h1 hstep
    rw [add_mul, div_mul_cancel₀ _ (ne_of_gt hstep)] at h2
    linarith
  · exact ⟨_, by ring⟩
  · intro k hk
    have hdiv : (ts.timeSliderStart + (ts.timeSliderEnd - ts.timeSliderStart) * progress -
        ts.timeSliderStart) / (ts.timeSliderStep * unitToMs ts.timeSliderUnit) = (k : ℚ) := by
      rw [hk, mul_div_cancel_right₀ _ (ne_of_gt hstep)]
    rw [hdiv, Int.ceil_intCast]
    linarith

/-- Witness for C3: start 0, end 3000ms, step 1 second, progress 1/2 —
the interpolated offset 1500 snaps up to 2000 and is assigned as the
extent end with playback stopped. -/
theorem interpolateTimeSlider_snaps_clamps_stops_witness :
    interpolateTimeSlider snapExampleSlide (1/2) readyWidget =
      .applied { readyWidget with
        timeExtent := some { startTime := none, endTime := some 2000 }
        playback := "stopped" } := by
  obtain ⟨s, v, sn, c, hs, hv, hsn, hc, heq, -⟩ :=
    interpolateTimeSlider_snaps_clamps_stops snapExampleSlide
      { timeSliderStart := 0, timeSliderEnd := 3000, timeSliderStep := 1,
        timeSliderUnit := "seconds" }
      (1/2) readyWidget rfl
      (by have hu : unitToMs "seconds" = 1000 := rfl; rw [hu]; norm_num)
      (by norm_num) (by norm_num) (by norm_num)
  have hs' : s = 1000 := by
    rw [hs]; have hu : unitToMs "seconds" = 1000 := rfl; rw [hu]; norm_num
  have hv' : v = 1500 := by rw [hv]; norm_num
  have hsn' : sn = 2000 := by
    rw [hsn, hv', hs']
    have hceil : (⌈(((1500 : ℚ)) -
        ({ timeSliderStart := 0, timeSliderEnd := 3000, timeSliderStep := 1,
            timeSliderUnit := "seconds" : TimeSliderData }).timeSliderStart) / 1000⌉ : ℤ) = 2 := by
      rw [Int.ceil_eq_iff]
      norm_num
    rw [hceil]
    norm_num
  have hc' : c = 2000 := by
    rw [hc, hsn']
    norm_num
  rw [heq, hc']

/-- Claim C4 (amended): after the discrete time-control handler runs on a
slide with a `timeSlider` block, the widget's playback is `"playing"` when
the widget reported `"ready"` and embedded mode is off, `"stopped"` when it
reported `"ready"` and embedded mode is on, and unchanged otherwise (the
not-ready branches call neither `play()` nor `stop()`); the extents are
configured in every case. -/
theorem toggleTimeSlider_playback (slideData : SlideData) (ts : TimeSliderData)
    (w : TimeSliderWidget) (embedded : Bool)
    (hts : slideData.timeSlider = some ts) :
    (toggleTimeSlider slideData (some w) embedded).map TimeSliderWidget.playback =
      some (if w.state = "ready" then (if embedded then "stopped" else "playing")
        else w.playback)
    ∧ (toggleTimeSlider slideData (some w) embedded).map TimeSliderWidget.timeExtent =
      some (some { startTime := none, endTime := some ts.timeSliderStart })
    ∧ (toggleTimeSlider slideData (some w) embedded).map TimeSliderWidget.fullTimeExtent =
      some (some { startTime := some ts.timeSliderStart, endTime := some ts.timeSliderEnd })
    ∧ (toggleTimeSlider slideData (some w) embedded).map TimeSliderWidget.state =
      some w.state := by
  simp only [toggleTimeSlider, hts]
  by_cases hready : w.state = "ready"
  · cases embedded <;> simp [hready]
  · simp [hready]

/-- Witness for C4: ready widget, non-embedded — playback comes out
`"playing"`. -/
theorem toggleTimeSlider_playback_witness :
    (toggleTimeSlider snapExampleSlide (some readyWidget) false).map
      TimeSliderWidget.playback = some "playing" := by
  have h := (toggleTimeSlider_playback snapExampleSlide
    { timeSliderStart := 0, timeSliderEnd := 3000, timeSliderStep := 1,
      timeSliderUnit := "seconds" }
    readyWidget false rfl).1
  simpa [readyWidget] using h

/-- Counterexample to C4 as stated: a widget that is not ready (its state
is `"playing"` — a previous slide's playback still running), non-embedded.
The claim demands playback `"stopped"` in every not-ready case, but the
handler touches playback only in the `"ready"` branches and leaves it
`"playing"`. -/
theorem toggleTimeSlider_claim_counterexample :
    (toggleTimeSlider snapExampleSlide (some playingWidget) false).map
      TimeSliderWidget.playback = some "playing"
    ∧ (toggleTimeSlider snapExampleSlide (some playingWidget) false).map
      TimeSliderWidget.playback ≠ some "stopped" := by
  constructor <;> decide

/-- Claim C5: the continuous environment handler no-ops unless both slides
define an environment block; given both (with their lighting and weather
sub-objects), it lerps the lighting datetime, lerps cloud cover and
precipitation exactly when both sides define them, copies atmosphere/star
flags from the current slide, and snaps lighting type, UTC offset and
weather type to the next slide's values (in particular for any
progress > 0). -/
theorem interpolateEnvironment_spec (slideCurrent slideNext : SlideData) (progress : ℚ) :
    (∀ ce ne cl nl cw nw,
      slideCurrent.environment = some ce → slideNext.environment = some ne →
      ce.lighting = some cl → ne.lighting = some nl →
      ce.weather = some cw → ne.weather = some nw →
      ∃ env, interpolateEnvironment slideCurrent slideNext progress = .applied env
        ∧ env.lightingDate = cl.datetime + (nl.datetime - cl.datetime) * progress
        ∧ (∀ c0 c1, cw.cloudCover = some c0 → nw.cloudCover = some c1 →
            env.cloudCover = some (c0 + (c1 - c0) * progress))
        ∧ (∀ p0 p1, cw.precipitation = some p0 → nw.precipitation = some p1 →
            env.precipitation = some (p0 + (p1 - p0) * progress))
        ∧ env.atmosphereEnabled = ce.atmosphereEnabled
        ∧ env.starsEnabled = ce.starsEnabled
        ∧ env.displayUTCOffset = nl.displayUTCOffset
        ∧ (0 < progress → env.lightingType = nl.type ∧ env.weatherType = nw.type))
    ∧ ((slideCurrent.environment = none ∨ slideNext.environment = none) →
      interpolateEnvironment slideCurrent slideNext progress = .noop) := by
  constructor
  · intro ce ne cl nl cw nw hce hne hcl hnl hcw hnw
    simp only [interpolateEnvironment, hce, hne, hcl, hnl, hcw, hnw]
    refine ⟨_, rfl, rfl, ?_, ?_, rfl, rfl, rfl, fun _ => ⟨rfl, rfl⟩⟩
    · intro c0 c1 hc0 hc1
      simp [hc0, hc1]
    · intro p0 p1 hp0 hp1
      simp [hp0, hp1]
  · rintro (h | h)
    · simp [interpolateEnvironment, h]
    · cases hce : slideCurrent.environment <;> simp [interpolateEnvironment, hce, h]

/-- Witness for C5: lighting datetimes 0 and one hour (3600000ms) at
progress 1/4 interpolate to 15 minutes (900000ms), while the weather type
snaps to the next slide's `"rain"`. -/
theorem interpolateEnvironment_spec_witness :
    (appliedEnvOf (interpolateEnvironment envSlideCurrent envSlideNext (1/4))).map
      AppliedEnvironment.lightingDate = some 900000
    ∧ (appliedEnvOf (interpolateEnvironment envSlideCurrent envSlideNext (1/4))).map
      AppliedEnvironment.weatherType = some "rain" := by
  obtain ⟨env, heq, hdate, -, -, -, -, -, htypes⟩ :=
    (interpolateEnvironment_spec envSlideCurrent envSlideNext (1/4)).1
      _ _ _ _ _ _ rfl rfl rfl rfl rfl rfl
  obtain ⟨-, hwt⟩ := htypes (by norm_num)
  rw [heq]
  constructor
  · simp [appliedEnvOf, hdate]
    norm_num
  · simp [appliedEnvOf, hwt]

/-- Claim C1 (amended): with both views defined and no sync in progress,
`syncViews` clones the source viewpoint, computes the factor
`Math.cos(lat·π/180)` from the source view's resolved center latitude, and
MULTIPLIES the cloned scale by the factor for 2D→3D, DIVIDES it for 3D→2D
(the reverse of the claim as stated), then navigates the destination view
without animation; with a sync in progress it does nothing. -/
theorem syncViews_scale_adjustment (cosDeg : ℚ → ℚ) (fv tv : SyncView) :
    (syncViews cosDeg true (some fv) (some tv) = none)
    ∧ (fv.type = "2d" → tv.type = "3d" →
        syncViews cosDeg false (some fv) (some tv) =
          some {
            target :=
              { scale := fv.viewpoint.scale *
                  cosDeg ((((fv.center.bind ViewCenter.latitude)).orElse
                    (fun _ => fv.center.bind ViewCenter.lat)).getD 0),
                rotation := fv.viewpoint.rotation },
            animate := false })
    ∧ (fv.type = "3d" → tv.type = "2d" →
        syncViews cosDeg false (some fv) (some tv) =
          some {
            target :=
              { scale := fv.viewpoint.scale /
                  cosDeg ((((fv.center.bind ViewCenter.latitude)).orElse
                    (fun _ => fv.center.bind ViewCenter.lat)).getD 0),
                rotation := fv.viewpoint.rotation },
            animate := false }) := by
  refine ⟨rfl, ?_, ?_⟩
  · intro h2d h3d
    simp [syncViews, h2d, h3d]
  · intro h3d h2d
    simp [syncViews, h2d, h3d]

/-- Witness for C1's amended statement: a 2D→3D sync at latitude 60° with
the cosine call returning 1/2 multiplies the scale 1000 down to 500. -/
theorem syncViews_scale_adjustment_witness :
    syncViews (fun _ => (1:ℚ)/2) false
      (some { type := "2d", viewpoint := { scale := 1000, rotation := 7 },
              center := some { latitude := some 60, lat := none } })
      (some { type := "3d", viewpoint := { scale := 1, rotation := 0 }, center := none }) =
      some { target := { scale := 500, rotation := 7 }, animate := false } := by
  have h := (syncViews_scale_adjustment (fun _ => (1:ℚ)/2)
    { type := "2d", viewpoint := { scale := 1000, rotation := 7 },
      center := some { latitude := some 60, lat := none } }
    { type := "3d", viewpoint := { scale := 1, rotation := 0 }, center := none }).2.1
    rfl rfl
  rw [h]
  norm_num

/-- Counterexample to C1 as stated: at a 2D→3D sync from latitude 60°
(scale conversion factor 1/2, the external cosine embedded as a constant
function) and source scale 1000, the code multiplies, producing scale 500,
whereas the claim's division would produce 2000. -/
theorem syncViews_claim_counterexample :
    syncViews (fun _ => (1:ℚ)/2) false
      (some { type := "2d", viewpoint := { scale := 1000, rotation := 0 },
              center := some { latitude := some 60, lat := none } })
      (some { type := "3d", viewpoint := { scale := 1, rotation := 0 }, center := none }) =
      some { target := { scale := 1000 * (1/2), rotation := 0 }, animate := false }
    ∧ syncViews (fun _ => (1:ℚ)/2) false
      (some { type := "2d", viewpoint := { scale := 1000, rotation := 0 },
              center := some { latitude := some 60, lat := none } })
      (some { type := "3d", viewpoint := { scale := 1, rotation := 0 }, center := none }) ≠
      some { target := { scale := 1000 / (1/2), rotation := 0 }, animate := false } := by
  constructor
  · simp [syncViews]
  · simp [syncViews]
    norm_num

/-- Claim C2 (amended): `crossfade(0,1,0)` hides surface 1's container and
leaves surface 0's fully opaque and interactive; `crossfade(0,1,1)` hides
surface 0's container and leaves surface 1's fully opaque and interactive;
`crossfade(0,1,0.5)` unhides surface 1's container, leaves surface 0's
hidden flag untouched (so both are visible when surface 0 was visible),
sets both opacities to 1/2, and — because pointer routing uses the strict
comparisons `t < 0.5` and `t > 0.5` — assigns pointer interaction to
NEITHER container at the exact tie. -/
theorem crossfade_endpoints_and_midpoint (c0 c1 : ContainerState)
    (fe te : Bool) :
    ((crossfade 0 1 0 c0 c1 fe te).toContainer.hidden = true
     ∧ (crossfade 0 1 0 c0 c1 fe te).fromContainer.opacity = 1
     ∧ (crossfade 0 1 0 c0 c1 fe te).toContainer.opacity = 0
     ∧ (crossfade 0 1 0 c0 c1 fe te).fromContainer.pointerEvents = "auto"
     ∧ (crossfade 0 1 0 c0 c1 fe te).toContainer.pointerEvents = "none")
    ∧ ((crossfade 0 1 1 c0 c1 fe te).fromContainer.hidden = true
     ∧ (crossfade 0 1 1 c0 c1 fe te).toContainer.hidden = false
     ∧ (crossfade 0 1 1 c0 c1 fe te).toContainer.opacity = 1
     ∧ (crossfade 0 1 1 c0 c1 fe te).fromContainer.opacity = 0
     ∧ (crossfade 0 1 1 c0 c1 fe te).toContainer.pointerEvents = "auto"
     ∧ (crossfade 0 1 1 c0 c1 fe te).fromContainer.pointerEvents = "none")
    ∧ ((crossfade 0 1 (1/2) c0 c1 fe te).toContainer.hidden = false
     ∧ (crossfade 0 1 (1/2) c0 c1 fe te).fromContainer.hidden = c0.hidden
     ∧ (crossfade 0 1 (1/2) c0 c1 fe te).fromContainer.opacity = 1/2
     ∧ (crossfade 0 1 (1/2) c0 c1 fe te).toContainer.opacity = 1/2
     ∧ (crossfade 0 1 (1/2) c0 c1 fe te).fromContainer.pointerEvents = "none"
     ∧ (crossfade 0 1 (1/2) c0 c1 fe te).toContainer.pointerEvents = "none") := by
  refine ⟨⟨?_, ?_, ?_, ?_, ?_⟩, ⟨?_, ?_, ?_, ?_, ?_, ?_⟩, ⟨?_, ?_, ?_, ?_, ?_, ?_⟩⟩ <;>
    norm_num [crossfade]

/-- Counterexample to C2 as stated: at the exact midpoint
`crossfade(0,1,0.5)` the `to` container's pointer events are `"none"`, not
the interactive ownership the claim assigns to surface 1. -/
theorem crossfade_claim_counterexample :
    (crossfade 0 1 (1/2)
      { hidden := false, opacity := 1, pointerEvents := "auto" }
      { hidden := true, opacity := 0, pointerEvents := "none" }
      true true).toContainer.pointerEvents = "none"
    ∧ (crossfade 0 1 (1/2)
      { hidden := false, opacity := 1, pointerEvents := "auto" }
      { hidden := true, opacity := 0, pointerEvents := "none" }
      true true).toContainer.pointerEvents ≠ "auto" := by
  have h : (crossfade 0 1 (1/2)
      { hidden := false, opacity := 1, pointerEvents := "auto" }
      { hidden := true, opacity := 0, pointerEvents := "none" }
      true true).toContainer.pointerEvents = "none" := by
    norm_num [crossfade]
  refine ⟨h, ?_⟩
  rw [h]
  decide

/-- Claim C9: in both dispatchers a handler that throws is caught at the
dispatch boundary and leaves the state as it found it, so the remaining
handlers of the same dispatch still run; concretely, a slide whose
malformed environment block makes the continuous environment handler throw
still gets its time handler applied, and the discrete dispatch of a slide
with a malformed environment block still applies its layer-visibility and
time-slider handlers. -/
theorem dispatch_isolation_spec :
    (∀ (handlers : String → Option (AppState → Except String AppState))
        (embedded : Bool) (keys1 keys2 : List String) (key : String)
        (handler : AppState → Except String AppState) (err : String) (s : AppState),
      handlers key = some handler →
      handler (slideAnimation handlers embedded keys1 s) = .error err →
      slideAnimation handlers embedded (keys1 ++ key :: keys2) s =
        slideAnimation handlers embedded keys2 (slideAnimation handlers embedded keys1 s))
    ∧ (∀ (handlers : String → Option (AppState → Except String AppState))
        (keys1 keys2 : List String) (key : String)
        (handler : AppState → Except String AppState) (err : String) (s : AppState),
      handlers key = some handler →
      handler (scrollAnimation handlers keys1 s) = .error err →
      scrollAnimation handlers (keys1 ++ key :: keys2) s =
        scrollAnimation handlers keys2 (scrollAnimation handlers keys1 s))
    ∧ (scrollAnimation (choreographyHandlersScroll malformedEnvSlide envSlideNext (1/2))
        ["environment", "timeSlider"] dispatchInitState =
      { dispatchInitState with
        timeSliderWidget := some { readyWidget with
          timeExtent := some { startTime := none, endTime := some 5000 }
          playback := "stopped" } })
    ∧ (slideAnimation (choreographyHandlersSlide malformedEnvSlide false) false
        ["environment", "layerVisibility", "timeSlider"] dispatchInitState =
      { dispatchInitState with
        layers :=
          [{ title := "Dams", visible := true }, { title := "Routes", visible := false },
           { title := "Base", visible := true }]
        timeSliderWidget := some { readyWidget with
          fullTimeExtent := some { startTime := some 0, endTime := some 10000 }
          timeExtent := some { startTime := none, endTime := some 0 }
          stops := some { value := 1, unit := "seconds" }
          playback := "playing" } }) := by
  refine ⟨?_, ?_, ?_, ?_⟩
  · intro handlers embedded keys1 keys2 key handler err s hk herr
    simp only [slideAnimation, List.foldl_append, List.foldl_cons, jsTryCatch] at herr ⊢
    simp only [hk]
    by_cases hskip : embedded = true ∧ key ∈ NON_EMBED_EXCLUDE_KEYS
    · rw [if_pos hskip]
    · rw [if_neg hskip, herr]
  · intro handlers keys1 keys2 key handler err s hk herr
    simp only [scrollAnimation, List.foldl_append, List.foldl_cons, jsTryCatch] at herr ⊢
    simp only [hk]
    rw [herr]
  · have henv : interpolateEnvironment malformedEnvSlide envSlideNext (1/2) = .thrown := rfl
    have hu : unitToMs "seconds" = 1000 := rfl
    have hms : (1 : ℚ) * unitToMs "seconds" = 1000 := by rw [hu]; norm_num
    have hts : interpolateTimeSlider malformedEnvSlide (1/2) readyWidget =
        .applied { readyWidget with
          timeExtent := some { startTime := none, endTime := some 5000 }
          playback := "stopped" } := by
      simp only [interpolateTimeSlider, malformedEnvSlide, hms]
      rw [if_neg (by norm_num)]
      have hceil : (⌈(((0 : ℚ) + (10000 - 0) * (1/2)) - 0) / 1000⌉ : ℤ) = 5 := by
        rw [Int.ceil_eq_iff]
        norm_num
      rw [hceil]
      norm_num
    have henvApp : scrollEnvironmentHandler malformedEnvSlide envSlideNext (1/2)
        dispatchInitState = .error "TypeError: malformed environment block" := by
      simp only [scrollEnvironmentHandler, henv]
    have htsApp : scrollTimeSliderHandler malformedEnvSlide (1/2) dispatchInitState =
        .ok { dispatchInitState with
          timeSliderWidget := some { readyWidget with
            timeExtent := some { startTime := none, endTime := some 5000 }
            playback := "stopped" } } := by
      have hwidget : dispatchInitState.timeSliderWidget = some readyWidget := rfl
      simp only [scrollTimeSliderHandler, hwidget, hts]
    have hlookupEnv : choreographyHandlersScroll malformedEnvSlide envSlideNext (1/2)
        "environment" = some (scrollEnvironmentHandler malformedEnvSlide envSlideNext (1/2)) :=
      rfl
    have hlookupTs : choreographyHandlersScroll malformedEnvSlide envSlideNext (1/2)
        "timeSlider" = some (scrollTimeSliderHandler malformedEnvSlide (1/2)) := rfl
    simp only [scrollAnimation, List.foldl_cons, List.foldl_nil, hlookupEnv, hlookupTs,
      jsTryCatch, henvApp, htsApp]
  · rfl

/-- Witness for C9's isolation property: a table whose every handler
throws dispatches to a no-op. -/
theorem dispatch_isolation_spec_witness :
    slideAnimation (fun _ => some fun _ => Except.error "boom") false
      ["environment", "timeSlider"] dispatchInitState = dispatchInitState := by
  have h := dispatch_isolation_spec.1 (fun _ => some fun _ => Except.error "boom") false
    [] ["timeSlider"] "environment" (fun _ => Except.error "boom") "boom" dispatchInitState
    rfl rfl
  simpa [slideAnimation, jsTryCatch] using h

end DamBusters
